import Mathlib

/-!
Shallow embedding of the core logic of a personal finance tracker
(transaction ledger with categories, attachments, recurring-transaction
projection, status derivation and aggregation views).

Modelling conventions:
* Calendar dates are triples (year, month, day).  The handlers normalize
  both sides of every comparison to date-only granularity (`setHours(0,0,0,0)`),
  so a date-only structure is the faithful value space; date strings of the
  form YYYY-MM-DD compare exactly like the triples.
* The JS `new Date(year, monthIndex, day)` constructor does not validate the
  day: a day past the end of the month overflows into the following months.
  `mkDate` reproduces that normalization.
* Form inputs of type number hold either the empty string or a numeric
  string; they are modelled as `Option` of the parsed value (`none` = empty,
  which is falsy in JS).
* Handlers that may abort during validation return `Option` of the payload
  they would send to the store: `none` means the handler returned before
  issuing any insert/update, leaving stored state unchanged.
* Amounts are modelled as rationals.
-/

/-- A calendar date at date-only granularity. -/
structure Date where
  year : Nat
  month : Nat
  day : Nat
deriving DecidableEq, Repr

/-- Gregorian leap-year rule, as implemented by the JS Date object. -/
def isLeapYear (y : Nat) : Bool :=
  (y % 4 == 0 && y % 100 != 0) || y % 400 == 0

/-- Number of days of month `m` (1-12) of year `y`. -/
def daysInMonth (y m : Nat) : Nat :=
  if m = 2 then (if isLeapYear y then 29 else 28)
  else if m = 4 ∨ m = 6 ∨ m = 9 ∨ m = 11 then 30
  else 31

/-- Fuelled day-overflow normalization; the fuel bounds the number of
month increments, and `d` shrinks by at least 28 per step. -/
def mkDateAux : Nat → Nat → Nat → Nat → Date
  | 0, y, m, d => ⟨y, m, d⟩
  | fuel + 1, y, m, d =>
    if d ≤ daysInMonth y m then ⟨y, m, d⟩
    else if m = 12 then mkDateAux fuel (y + 1) 1 (d - daysInMonth y m)
    else mkDateAux fuel y (m + 1) (d - daysInMonth y m)

/-- `mkDate y m d` embeds the JS `new Date(y, m - 1, d)` construction for
`d ≥ 1`: a day count exceeding the length of the month rolls over into the
following months (no clamping, no validation). -/
def mkDate (y m d : Nat) : Date :=
  mkDateAux d y m d

/-- Strict order on date-only values: the comparison performed by
`selectedDate > today` after both sides were set to local midnight. -/
def dateLt (a b : Date) : Prop :=
  a.year < b.year ∨
    (a.year = b.year ∧ (a.month < b.month ∨ (a.month = b.month ∧ a.day < b.day)))

instance (a b : Date) : Decidable (dateLt a b) := by
  unfold dateLt; infer_instance

/-- Transaction type: `'income' | 'expense'`. -/
inductive TxType
  | income
  | expense
deriving DecidableEq, Repr

/-- Transaction status: `'completed' | 'pending'`. -/
inductive TxStatus
  | completed
  | pending
deriving DecidableEq, Repr

/-- The joined `categories (name, icon)` object of a transaction row. -/
structure CategoryRef where
  name : String
  icon : String
deriving DecidableEq, Repr

/-- A row of the `transactions` table as fetched by the views
(`select *` plus the joined category). -/
structure Transaction where
  id : Nat
  user_id : Nat
  description : Option String
  amount : ℚ
  type : TxType
  date : Date
  status : TxStatus
  is_recurring : Bool
  recurrence_day : Option Nat
  category_id : Option Nat
  categories : Option CategoryRef
deriving DecidableEq, Repr

/-- The `transactionData` payload built by the transaction form and sent to
the store on insert or update. -/
structure TransactionData where
  user_id : Nat
  type : TxType
  category_id : Option Nat
  amount : ℚ
  description : Option String
  date : Date
  is_recurring : Bool
  recurrence_day : Option Nat
  status : TxStatus
deriving DecidableEq, Repr

/-- The state of the transaction form at submission time.  `amount` and
`recurrenceDay` are numeric inputs: `none` models the empty string. -/
structure TransactionForm where
  type : TxType
  categoryId : Option Nat
  amount : Option ℚ
  description : String
  date : Date
  isRecurring : Bool
  recurrenceDay : Option Nat
deriving DecidableEq, Repr

/-- Embedding of JS `String.prototype.trim`: drop whitespace from both
ends. -/
def strTrim (s : String) : String :=
  String.mk ((s.data.dropWhile Char.isWhitespace).reverse.dropWhile Char.isWhitespace).reverse

/-- Status derivation: `selectedDate > today ? "pending" : "completed"`,
both sides already normalized to date-only granularity. -/
def deriveStatus (selectedDate today : Date) : TxStatus :=
  if dateLt today selectedDate then TxStatus.pending else TxStatus.completed

/-- The transaction form submit handler.  Returns the payload sent to the
store, or `none` when validation (`!amount || parseFloat(amount) <= 0`)
aborts the submission before any store call. -/
def handleSubmit (userId : Nat) (f : TransactionForm) (today : Date) :
    Option TransactionData :=
  match f.amount with
  | none => none
  | some a =>
    if a ≤ 0 then none
    else
      some
        { user_id := userId
          type := f.type
          category_id := f.categoryId
          amount := a
          description :=
            if (strTrim f.description).isEmpty then none
            else some (strTrim f.description)
          date := f.date
          is_recurring := f.isRecurring
          recurrence_day := if f.isRecurring then f.recurrenceDay else none
          status := deriveStatus f.date today }

/-- The state of the category form at submission time. -/
structure CategoryForm where
  name : String
  icon : String
  type : TxType
deriving DecidableEq, Repr

/-- The payload written by the category form. -/
structure CategoryData where
  user_id : Nat
  name : String
  icon : String
  type : TxType
deriving DecidableEq, Repr

/-- The category form submit handler (covers both the insert and the update
branch, which share the validation and the written fields).  `none` means
the empty-name check aborted the submission before any store call. -/
def categoriesHandleSubmit (userId : Nat) (f : CategoryForm) : Option CategoryData :=
  if (strTrim f.name).isEmpty then none
  else
    some { user_id := userId, name := strTrim f.name, icon := f.icon, type := f.type }

/-- Monthly income total of `fetchMonthlyData`: reduce over the income
transactions of the fetched period. -/
def totalIncome (ts : List Transaction) : ℚ :=
  (ts.filter fun t => decide (t.type = TxType.income)).foldl (fun s t => s + t.amount) 0

/-- Monthly expense total of `fetchMonthlyData`. -/
def totalExpenses (ts : List Transaction) : ℚ :=
  (ts.filter fun t => decide (t.type = TxType.expense)).foldl (fun s t => s + t.amount) 0

/-- `const balance = income - expenses`. -/
def balance (ts : List Transaction) : ℚ :=
  totalIncome ts - totalExpenses ts

/-- The result state of the pending summary. -/
structure PendingData where
  totalExpenses : ℚ
  totalIncome : ℚ
  count : Nat
deriving DecidableEq, Repr

/-- `fetchPendingTransactions`: the query filters the user's transactions by
`status = 'pending'` only (no date range); the reducer splits by type and
counts all fetched rows. -/
def fetchPendingTransactions (ts : List Transaction) : PendingData :=
  let data := ts.filter fun t => decide (t.status = TxStatus.pending)
  { totalExpenses :=
      (data.filter fun t => decide (t.type = TxType.expense)).foldl
        (fun s t => s + t.amount) 0
    totalIncome :=
      (data.filter fun t => decide (t.type = TxType.income)).foldl
        (fun s t => s + t.amount) 0
    count := data.length }

/-- The `regularData` query of the calendar page: the user's transactions
whose date lies between the first and the last day of the viewed month. -/
def regularForMonth (stored : List Transaction) (y m : Nat) : List Transaction :=
  stored.filter fun t => decide (t.date.year = y) && decide (t.date.month = m)

/-- The `recurringData` query: transactions with `is_recurring = true` and a
non-null `recurrence_day`. -/
def recurringTemplates (stored : List Transaction) : List Transaction :=
  stored.filter fun t => t.is_recurring && t.recurrence_day.isSome

/-- One iteration of the projection loop: for a template, either synthesize
the virtual occurrence `{...recurring, date: recurringDate}` for the viewed
month, or skip it.  Skipping happens when `recurrence_day` is null or `0`
(falsy), or when `regularData` already holds a row with the template's id on
the constructed date. -/
def synthOne (regular : List Transaction) (y m : Nat) (tpl : Transaction) :
    Option Transaction :=
  match tpl.recurrence_day with
  | none => none
  | some d =>
    if d = 0 then none
    else if regular.any fun t => decide (t.id = tpl.id) && decide (t.date = mkDate y m d)
    then none
    else some { tpl with date := mkDate y m d }

/-- The list of synthesized virtual occurrences pushed by the loop. -/
def virtualsFor (regular : List Transaction) (y m : Nat)
    (templates : List Transaction) : List Transaction :=
  templates.filterMap (synthOne regular y m)

/-- `fetchTransactions` of the calendar page: the month's real transactions
followed by the synthesized virtual occurrences of the recurring templates.
The result is only displayed, never persisted. -/
def fetchTransactions (stored : List Transaction) (y m : Nat) : List Transaction :=
  regularForMonth stored y m ++
    virtualsFor (regularForMonth stored y m) y m (recurringTemplates stored)

/-- A row of the `categories` table. -/
structure Category where
  id : Nat
  user_id : Nat
  name : String
  icon : String
  type : TxType
deriving DecidableEq, Repr

/-- The relational store state relevant to category deletion. -/
structure DBState where
  categories : List Category
  transactions : List Transaction
deriving DecidableEq, Repr

/-- Category deletion.  Embeds the declared foreign-key action
`category_id REFERENCES categories(id) ON DELETE SET NULL` from the
migrations: the category row is removed, and every transaction referencing
it keeps all its fields except that `category_id` becomes null. -/
def deleteCategory (s : DBState) (cid : Nat) : DBState :=
  { categories := s.categories.filter fun c => decide (c.id ≠ cid)
    transactions := s.transactions.map fun t =>
      if t.category_id = some cid then { t with category_id := none } else t }

/-- The client-side attachment size cap: `10 * 1024 * 1024` bytes. -/
def maxAttachmentSize : Nat := 10 * 1024 * 1024

/-- `handleFileSelect`: a file over the cap is rejected (the selection is
left unchanged and the handler returns before anything else); otherwise the
file (identified by its size) becomes the selection. -/
def handleFileSelect (fileSize : Nat) (selectedFile : Option Nat) : Option Nat :=
  if fileSize > maxAttachmentSize then selectedFile else some fileSize

/-- `handleUploadAttachment`: uploads the blob and inserts the metadata
record only when a file is selected and a transaction is open; the result is
the size of the stored file, `none` when nothing was stored. -/
def handleUploadAttachment (selectedFile : Option Nat) (hasTransaction : Bool) :
    Option Nat :=
  match selectedFile with
  | none => none
  | some sz => if hasTransaction then some sz else none


/-! ### Concrete records used to instantiate the theorems -/

/-- A recurring template whose `recurrence_day` exceeds the length of
April (30 days). -/
def tplC2 : Transaction :=
  { id := 1, user_id := 0, description := none, amount := 100, type := TxType.expense,
    date := ⟨2025, 1, 31⟩, status := TxStatus.completed, is_recurring := true,
    recurrence_day := some 31, category_id := none, categories := none }

/-- A recurring template with a day that fits the viewed month. -/
def tplC2w : Transaction :=
  { id := 2, user_id := 0, description := none, amount := 80, type := TxType.income,
    date := ⟨2025, 1, 15⟩, status := TxStatus.completed, is_recurring := true,
    recurrence_day := some 10, category_id := none, categories := none }

/-- A recurring template stored exactly on the date its day-31 projection
rolls over to when April is viewed. -/
def tplC3 : Transaction :=
  { id := 3, user_id := 0, description := none, amount := 50, type := TxType.expense,
    date := ⟨2025, 5, 1⟩, status := TxStatus.pending, is_recurring := true,
    recurrence_day := some 31, category_id := none, categories := none }

/-- A recurring template whose own stored date coincides with its projected
date inside the viewed month. -/
def txC3w : Transaction :=
  { id := 4, user_id := 0, description := none, amount := 20, type := TxType.income,
    date := ⟨2025, 6, 10⟩, status := TxStatus.completed, is_recurring := true,
    recurrence_day := some 10, category_id := none, categories := none }

/-- A form submission with the recurring box checked but the recurrence-day
field left blank. -/
def formC5 : TransactionForm :=
  { type := TxType.expense, categoryId := none, amount := some 100, description := "",
    date := ⟨2025, 6, 10⟩, isRecurring := true, recurrenceDay := none }

/-- A fully filled recurring form submission. -/
def formC5w : TransactionForm :=
  { type := TxType.income, categoryId := some 1, amount := some 200,
    description := " pagamento ", date := ⟨2025, 3, 5⟩, isRecurring := true,
    recurrenceDay := some 5 }

/-- The payload `formC5w` produces on 2025-04-01. -/
def txdC5w : TransactionData :=
  { user_id := 9, type := TxType.income, category_id := some 1, amount := 200,
    description := some "pagamento", date := ⟨2025, 3, 5⟩, is_recurring := true,
    recurrence_day := some 5, status := TxStatus.completed }

/-- A transaction referencing category 5. -/
def txC8 : Transaction :=
  { id := 1, user_id := 0, description := some "aluguel", amount := 10,
    type := TxType.expense, date := ⟨2025, 1, 15⟩, status := TxStatus.completed,
    is_recurring := false, recurrence_day := none, category_id := some 5,
    categories := none }

/-- A store state holding category 5 and one transaction referencing it. -/
def stateC8 : DBState :=
  { categories :=
      [{ id := 5, user_id := 0, name := "Moradia", icon := "home", type := TxType.expense }],
    transactions := [txC8] }

/-- A recurring template carrying every optional field. -/
def tplC10 : Transaction :=
  { id := 9, user_id := 0, description := some "assinatura", amount := 30,
    type := TxType.expense, date := ⟨2025, 1, 10⟩, status := TxStatus.completed,
    is_recurring := true, recurrence_day := some 10, category_id := some 2,
    categories := some { name := "Lazer", icon := "sports_esports" } }

/-- The virtual occurrence `tplC10` projects into June 2025. -/
def vC10 : Transaction := { tplC10 with date := mkDate 2025 6 10 }

/-! ### Helper lemmas -/

/-- A left fold adding amounts computes the sum of the mapped amounts. -/
lemma foldl_add_amount (l : List Transaction) (a : ℚ) :
    l.foldl (fun s t => s + t.amount) a = a + (l.map Transaction.amount).sum := by
  induction l generalizing a with
  | nil => simp
  | cons hd tl ih =>
    simp only [List.foldl_cons, List.map_cons, List.sum_cons]
    rw [ih]
    ring

/-- A day within the month is not normalized away by `mkDate`. -/
lemma mkDate_eq_of_le (y m d : Nat) (h : d ≤ daysInMonth y m) :
    mkDate y m d = ⟨y, m, d⟩ := by
  cases d with
  | zero => simp [mkDate, mkDateAux]
  | succ n => simp [mkDate, mkDateAux, h]

/-- A synthesized occurrence carries the id of its template. -/
lemma synthOne_id (regular : List Transaction) (y m : Nat) (tpl v : Transaction)
    (h : synthOne regular y m tpl = some v) : v.id = tpl.id := by
  unfold synthOne at h
  split at h
  · cases h
  · split_ifs at h
    cases h
    rfl

/-- The record a template synthesizes when nothing forces a skip. -/
lemma synthOne_eq_some (regular : List Transaction) (y m d : Nat) (tpl : Transaction)
    (hday : tpl.recurrence_day = some d) (h0 : d ≠ 0)
    (hex : ∀ t ∈ regular, ¬(t.id = tpl.id ∧ t.date = mkDate y m d)) :
    synthOne regular y m tpl = some { tpl with date := mkDate y m d } := by
  have hany :
      (regular.any fun t => decide (t.id = tpl.id) && decide (t.date = mkDate y m d))
        = false := by
    rw [List.any_eq_false]
    intro t ht
    simp only [Bool.and_eq_true, decide_eq_true_eq, not_and]
    intro h1 h2
    exact hex t ht ⟨h1, h2⟩
  unfold synthOne
  rw [hday]
  simp only [h0, if_false, hany, Bool.false_eq_true, if_neg]

/-- Among the virtual occurrences synthesized from templates with pairwise
distinct ids, exactly one satisfies a predicate that pins down the id of a
template whose synthesis succeeds and matches the predicate. -/
lemma virtuals_filter_length_one (regular : List Transaction) (y m : Nat)
    (ts : List Transaction) (tpl v : Transaction) (q : Transaction → Bool)
    (hnd : (ts.map Transaction.id).Nodup) (hmem : tpl ∈ ts)
    (hout : synthOne regular y m tpl = some v) (hqv : q v = true)
    (hq : ∀ w, q w = true → w.id = tpl.id) :
    ((ts.filterMap (synthOne regular y m)).filter q).length = 1 := by
  induction ts with
  | nil => cases hmem
  | cons hd tl ih =>
    rw [List.map_cons, List.nodup_cons] at hnd
    obtain ⟨hhd, htl⟩ := hnd
    rcases List.mem_cons.mp hmem with heq | hmemtl
    · subst heq
      rw [List.filterMap_cons, hout, List.filter_cons_of_pos hqv]
      have hrest : (tl.filterMap (synthOne regular y m)).filter q = [] := by
        rw [List.filter_eq_nil_iff]
        intro w hw hqw
        obtain ⟨tplB, htplB, hsome⟩ := List.mem_filterMap.mp hw
        have hid : w.id = tplB.id := synthOne_id regular y m tplB w hsome
        have hid2 : w.id = tpl.id := hq w hqw
        have hideq : tplB.id = tpl.id := by rw [← hid, hid2]
        exact hhd (hideq ▸ List.mem_map_of_mem Transaction.id htplB)
      rw [hrest]
      rfl
    · have hne : hd.id ≠ tpl.id := by
        intro h
        exact hhd (h ▸ List.mem_map_of_mem Transaction.id hmemtl)
      rw [List.filterMap_cons]
      cases hsyn : synthOne regular y m hd with
      | none => exact ih htl hmemtl
      | some w =>
        have hwid : w.id = hd.id := synthOne_id regular y m hd w hsyn
        have hqw : q w = false := by
          cases hq2 : q w
          · rfl
          · exfalso
            apply hne
            rw [← hwid]
            exact hq w hq2
        rw [List.filter_cons_of_neg (by rw [hqw]; exact Bool.false_ne_true)]
        exact ih htl hmemtl

/-! ### Claims -/

/-- C1: for every transaction create or update submitted through the
transaction form, the written `status` equals `pending` if and only if the
transaction's date, compared at date-only granularity, is strictly after
the current date at write time; otherwise the written status is
`completed`. -/
theorem C1_status_derivation (userId : Nat) (f : TransactionForm) (today : Date)
    (txd : TransactionData) (h : handleSubmit userId f today = some txd) :
    txd.status = TxStatus.pending ↔ dateLt today txd.date := by
  cases ha : f.amount with
  | none =>
    unfold handleSubmit at h
    rw [ha] at h
    cases h
  | some a =>
    unfold handleSubmit at h
    simp only [ha] at h
    by_cases hle : a ≤ 0
    · rw [if_pos hle] at h; cases h
    · rw [if_neg hle] at h
      obtain rfl := Option.some.inj h
      show deriveStatus f.date today = TxStatus.pending ↔ dateLt today f.date
      unfold deriveStatus
      by_cases hlt : dateLt today f.date
      · simp [hlt]
      · simp [hlt]

/-- C1 witness: a submission dated 2025-06-10 written on 2025-06-01 is
`pending`. -/
theorem C1_status_derivation_witness :
    ({ user_id := 7, type := TxType.expense, category_id := none, amount := 5,
       description := none, date := ⟨2025, 6, 10⟩, is_recurring := false,
       recurrence_day := none, status := TxStatus.pending } :
        TransactionData).status = TxStatus.pending ↔
      dateLt ⟨2025, 6, 1⟩
        ({ user_id := 7, type := TxType.expense, category_id := none, amount := 5,
           description := none, date := ⟨2025, 6, 10⟩, is_recurring := false,
           recurrence_day := none, status := TxStatus.pending } :
            TransactionData).date :=
  C1_status_derivation 7
    { type := TxType.expense, categoryId := none, amount := some 5, description := "",
      date := ⟨2025, 6, 10⟩, isRecurring := false, recurrenceDay := none }
    ⟨2025, 6, 1⟩ _ (by decide)

/-- C2 counterexample: a template with `recurrence_day = 31` viewed in
April 2025 (30 days) satisfies the claim's hypothesis (no stored
transaction with its id on 2025-04-31), yet the projector synthesizes no
occurrence dated (2025, 4, 31); the JS date constructor rolls the
occurrence over to 2025-05-01 instead. -/
theorem C2_day_overflow_counterexample :
    tplC2 ∈ recurringTemplates [tplC2] ∧ tplC2.recurrence_day = some 31 ∧
    (∀ t ∈ [tplC2], ¬(t.id = tplC2.id ∧ t.date = (⟨2025, 4, 31⟩ : Date))) ∧
    ((virtualsFor (regularForMonth [tplC2] 2025 4) 2025 4 (recurringTemplates [tplC2])).filter
        fun v => decide (v.id = tplC2.id) && decide (v.date = (⟨2025, 4, 31⟩ : Date))).length
      ≠ 1 ∧
    ((virtualsFor (regularForMonth [tplC2] 2025 4) 2025 4 (recurringTemplates [tplC2])).filter
        fun v => decide (v.id = tplC2.id) && decide (v.date = (⟨2025, 5, 1⟩ : Date))).length
      = 1 := by
  decide

/-- C2 (amended): for every recurring template with non-null
`recurrence_day = d` such that `d` does not exceed the length of the viewed
month, with transaction ids pairwise distinct (the table's primary key), if
no stored transaction with the template's id exists on
(viewed_year, viewed_month, d), then the projector synthesizes exactly one
virtual occurrence with that id dated (viewed_year, viewed_month, d).  The
restriction on `d` is forced by the day-overflow counterexample. -/
theorem C2_projector_amended (stored : List Transaction) (y m d : Nat) (tpl : Transaction)
    (hnd : (stored.map Transaction.id).Nodup)
    (hmem : tpl ∈ stored) (hrec : tpl.is_recurring = true)
    (hday : tpl.recurrence_day = some d) (hd1 : 1 ≤ d) (hdm : d ≤ daysInMonth y m)
    (hnone : ∀ t ∈ stored, ¬(t.id = tpl.id ∧ t.date = (⟨y, m, d⟩ : Date))) :
    ((virtualsFor (regularForMonth stored y m) y m (recurringTemplates stored)).filter
        fun v => decide (v.id = tpl.id) && decide (v.date = (⟨y, m, d⟩ : Date))).length
      = 1 := by
  have hmk : mkDate y m d = ⟨y, m, d⟩ := mkDate_eq_of_le y m d hdm
  have hmemT : tpl ∈ recurringTemplates stored := by
    unfold recurringTemplates
    rw [List.mem_filter]
    refine ⟨hmem, ?_⟩
    rw [hrec, hday]
    rfl
  have hndT : ((recurringTemplates stored).map Transaction.id).Nodup := by
    have hsub : List.Sublist ((recurringTemplates stored).map Transaction.id)
        (stored.map Transaction.id) :=
      List.Sublist.map Transaction.id (List.filter_sublist stored)
    exact List.Nodup.sublist hsub hnd
  have hout : synthOne (regularForMonth stored y m) y m tpl =
      some { tpl with date := mkDate y m d } := by
    apply synthOne_eq_some
    · exact hday
    · omega
    · intro t ht hcontra
      have hts : t ∈ stored := List.mem_of_mem_filter ht
      rw [hmk] at hcontra
      exact hnone t hts hcontra
  apply virtuals_filter_length_one (regularForMonth stored y m) y m
    (recurringTemplates stored) tpl { tpl with date := mkDate y m d } _ hndT hmemT hout
  · simp [hmk]
  · intro w hw
    simp only [Bool.and_eq_true, decide_eq_true_eq] at hw
    exact hw.1

/-- C2 witness: a day-10 template viewed in June 2025 yields exactly one
virtual occurrence dated 2025-06-10. -/
theorem C2_projector_amended_witness :
    ((virtualsFor (regularForMonth [tplC2w] 2025 6) 2025 6
          (recurringTemplates [tplC2w])).filter
        fun v => decide (v.id = tplC2w.id) && decide (v.date = (⟨2025, 6, 10⟩ : Date))).length
      = 1 :=
  C2_projector_amended [tplC2w] 2025 6 10 tplC2w (by decide) (by decide) (by decide)
    (by decide) (by decide) (by decide) (by decide)

/-- C3 counterexample: viewing April 2025, a day-31 template projects to
2025-05-01; a stored transaction with the template's id exists on that
projected date (the template itself), yet a virtual occurrence is still
synthesized and appears in the output, because the dedup check only scans
the rows of the viewed month. -/
theorem C3_dedup_counterexample :
    (∃ t ∈ [tplC3], t.id = tplC3.id ∧ t.date = mkDate 2025 4 31) ∧
    synthOne (regularForMonth [tplC3] 2025 4) 2025 4 tplC3 =
      some { tplC3 with date := (⟨2025, 5, 1⟩ : Date) } ∧
    ({ tplC3 with date := (⟨2025, 5, 1⟩ : Date) } : Transaction) ∈
      fetchTransactions [tplC3] 2025 4 := by
  decide

/-- C3 (amended): the projector's output is the month's real transactions
followed by the synthesized virtual occurrences; every real transaction of
the month appears in the output unmodified; and for a template for which a
concrete stored transaction **of the viewed month** with the template's id
exists on the projected date, no virtual occurrence is synthesized.  The
month restriction on the dedup guarantee is forced by the counterexample. -/
theorem C3_union_dedup_amended (stored : List Transaction) (y m : Nat) :
    fetchTransactions stored y m =
      regularForMonth stored y m ++
        virtualsFor (regularForMonth stored y m) y m (recurringTemplates stored) ∧
    (∀ t ∈ regularForMonth stored y m, t ∈ fetchTransactions stored y m) ∧
    (∀ (tpl : Transaction) (d : Nat), tpl.recurrence_day = some d →
        (∃ t ∈ regularForMonth stored y m, t.id = tpl.id ∧ t.date = mkDate y m d) →
        synthOne (regularForMonth stored y m) y m tpl = none) := by
  refine ⟨rfl, ?_, ?_⟩
  · intro t ht
    unfold fetchTransactions
    exact List.mem_append_left _ ht
  · rintro tpl d hday ⟨t, ht, hid, hdate⟩
    unfold synthOne
    simp only [hday]
    by_cases h0 : d = 0
    · rw [if_pos h0]
    · rw [if_neg h0]
      have hany : ((regularForMonth stored y m).any
          fun u => decide (u.id = tpl.id) && decide (u.date = mkDate y m d)) = true := by
        rw [List.any_eq_true]
        refine ⟨t, ht, ?_⟩
        simp [hid, hdate]
      rw [if_pos hany]

/-- C3 witness: a template already stored on its projected date inside the
viewed month stays in the output and synthesizes nothing. -/
theorem C3_union_dedup_amended_witness :
    txC3w ∈ fetchTransactions [txC3w] 2025 6 ∧
    synthOne (regularForMonth [txC3w] 2025 6) 2025 6 txC3w = none :=
  ⟨(C3_union_dedup_amended [txC3w] 2025 6).2.1 txC3w (by decide),
   (C3_union_dedup_amended [txC3w] 2025 6).2.2 txC3w 10 (by decide)
     ⟨txC3w, by decide, by decide, by decide⟩⟩

/-- C4: the monthly balance view computes the income total as the sum of
income amounts, the expense total as the sum of expense amounts, the
balance as their difference, and all three are zero on the empty list. -/
theorem C4_monthly_balance (ts : List Transaction) :
    totalIncome ts =
      ((ts.filter fun t => decide (t.type = TxType.income)).map Transaction.amount).sum ∧
    totalExpenses ts =
      ((ts.filter fun t => decide (t.type = TxType.expense)).map Transaction.amount).sum ∧
    balance ts = totalIncome ts - totalExpenses ts ∧
    totalIncome [] = 0 ∧ totalExpenses [] = 0 ∧ balance [] = 0 := by
  refine ⟨?_, ?_, rfl, rfl, rfl, sub_zero 0⟩
  · unfold totalIncome
    rw [foldl_add_amount, zero_add]
  · unfold totalExpenses
    rw [foldl_add_amount, zero_add]

/-- C5 counterexample: submitting the form with `is_recurring` checked and
the recurrence-day field blank writes a record with `is_recurring = true`
and `recurrence_day = null`, refuting "non-null iff is_recurring". -/
theorem C5_blank_recurrence_counterexample :
    ∃ txd : TransactionData, handleSubmit 7 formC5 ⟨2025, 6, 1⟩ = some txd ∧
      txd.is_recurring = true ∧ txd.recurrence_day = none := by
  refine ⟨{ user_id := 7, type := TxType.expense, category_id := none, amount := 100,
            description := none, date := ⟨2025, 6, 10⟩, is_recurring := true,
            recurrence_day := none, status := TxStatus.pending }, by decide, rfl, rfl⟩

/-- C5 (amended): the written `recurrence_day` is non-null only if
`is_recurring` is true; when `is_recurring` is true it equals the form's
recurrence-day field, which the form does not force to be filled, so a
record with `is_recurring = true` and a null `recurrence_day` is
possible.  (The 1-31 range of non-null stored values is enforced by the
table's check constraint, not by the handler.) -/
theorem C5_recurrence_day_amended (userId : Nat) (f : TransactionForm) (today : Date)
    (txd : TransactionData) (h : handleSubmit userId f today = some txd) :
    txd.is_recurring = f.isRecurring ∧
    txd.recurrence_day = (if f.isRecurring then f.recurrenceDay else none) ∧
    (txd.recurrence_day ≠ none → txd.is_recurring = true) := by
  cases ha : f.amount with
  | none =>
    unfold handleSubmit at h
    rw [ha] at h
    cases h
  | some a =>
    unfold handleSubmit at h
    simp only [ha] at h
    by_cases hle : a ≤ 0
    · rw [if_pos hle] at h; cases h
    · rw [if_neg hle] at h
      obtain rfl := Option.some.inj h
      refine ⟨rfl, rfl, ?_⟩
      intro hne
      by_cases hr : f.isRecurring = true
      · exact hr
      · exfalso
        apply hne
        show (if f.isRecurring = true then f.recurrenceDay else none) = none
        rw [if_neg hr]

/-- C5 witness: a filled recurring form writes its day and the recurring
flag. -/
theorem C5_recurrence_day_amended_witness :
    txdC5w.is_recurring = formC5w.isRecurring ∧
    txdC5w.recurrence_day = (if formC5w.isRecurring then formC5w.recurrenceDay else none) ∧
    (txdC5w.recurrence_day ≠ none → txdC5w.is_recurring = true) :=
  C5_recurrence_day_amended 9 formC5w ⟨2025, 4, 1⟩ txdC5w (by decide)

/-- C6: the pending summary is computed over the transactions with status
`pending` with no date-range restriction: its income total is the sum of
pending income amounts, its expense total the sum of pending expense
amounts, and its count the number of all pending transactions regardless
of type. -/
theorem C6_pending_summary (ts : List Transaction) :
    (fetchPendingTransactions ts).totalIncome =
      ((ts.filter fun t =>
          decide (t.type = TxType.income) && decide (t.status = TxStatus.pending)).map
        Transaction.amount).sum ∧
    (fetchPendingTransactions ts).totalExpenses =
      ((ts.filter fun t =>
          decide (t.type = TxType.expense) && decide (t.status = TxStatus.pending)).map
        Transaction.amount).sum ∧
    (fetchPendingTransactions ts).count =
      (ts.filter fun t => decide (t.status = TxStatus.pending)).length := by
  refine ⟨?_, ?_, rfl⟩
  · show ((ts.filter fun t => decide (t.status = TxStatus.pending)).filter
        fun t => decide (t.type = TxType.income)).foldl (fun s t => s + t.amount) 0 = _
    rw [foldl_add_amount, zero_add, List.filter_filter]
  · show ((ts.filter fun t => decide (t.status = TxStatus.pending)).filter
        fun t => decide (t.type = TxType.expense)).foldl (fun s t => s + t.amount) 0 = _
    rw [foldl_add_amount, zero_add, List.filter_filter]

/-- C7: a transaction form submission with a missing or non-positive
amount, and a category form submission whose name is empty after trimming,
abort before issuing any store call. -/
theorem C7_validation_aborts :
    (∀ (userId : Nat) (f : TransactionForm) (today : Date),
        f.amount = none ∨ (∃ a, f.amount = some a ∧ a ≤ 0) →
        handleSubmit userId f today = none) ∧
    (∀ (userId : Nat) (g : CategoryForm), strTrim g.name = "" →
        categoriesHandleSubmit userId g = none) := by
  constructor
  · rintro userId f today (hnone | ⟨a, ha, hle⟩)
    · unfold handleSubmit
      rw [hnone]
    · unfold handleSubmit
      simp only [ha]
      rw [if_pos hle]
  · intro userId g hname
    unfold categoriesHandleSubmit
    have hemp : "".isEmpty = true := rfl
    rw [hname, if_pos hemp]

/-- C7 witness: an empty amount and a whitespace-only category name both
abort. -/
theorem C7_validation_aborts_witness :
    handleSubmit 3
      { type := TxType.expense, categoryId := none, amount := none, description := "",
        date := ⟨2025, 1, 1⟩, isRecurring := false, recurrenceDay := none }
      ⟨2025, 1, 1⟩ = none ∧
    categoriesHandleSubmit 3
      { name := "   ", icon := "category", type := TxType.expense } = none :=
  ⟨C7_validation_aborts.1 3 _ _ (Or.inl rfl),
   C7_validation_aborts.2 3 _ (by decide)⟩

/-- C8: deleting a category deletes no transaction; every transaction that
referenced it survives with `category_id` set to null and all other fields
unchanged, and every other transaction survives entirely unchanged. -/
theorem C8_delete_category (s : DBState) (cid : Nat) :
    (deleteCategory s cid).transactions.length = s.transactions.length ∧
    (∀ t ∈ s.transactions, t.category_id = some cid →
        ({ t with category_id := none } : Transaction) ∈ (deleteCategory s cid).transactions) ∧
    (∀ t ∈ s.transactions, t.category_id ≠ some cid →
        t ∈ (deleteCategory s cid).transactions) := by
  refine ⟨?_, ?_, ?_⟩
  · show (s.transactions.map _).length = _
    rw [List.length_map]
  · intro t ht hcid
    have hmem := List.mem_map_of_mem
      (fun t => if t.category_id = some cid then { t with category_id := none } else t) ht
    simp only [if_pos hcid] at hmem
    exact hmem
  · intro t ht hcid
    have hmem := List.mem_map_of_mem
      (fun t => if t.category_id = some cid then { t with category_id := none } else t) ht
    simp only [if_neg hcid] at hmem
    exact hmem

/-- C8 witness: deleting category 5 keeps its transaction with a nulled
reference. -/
theorem C8_delete_category_witness :
    ({ txC8 with category_id := none } : Transaction) ∈ (deleteCategory stateC8 5).transactions :=
  (C8_delete_category stateC8 5).2.1 txC8 (by decide) (by decide)

/-- C9: a file over 10 MB is rejected client-side — the selection does not
change, and with nothing selected the upload handler stores neither a blob
nor a metadata record; a file of at most 10 MB becomes the selection. -/
theorem C9_attachment_size_cap (sz : Nat) (sel : Option Nat) :
    (sz > maxAttachmentSize → handleFileSelect sz sel = sel) ∧
    (sz ≤ maxAttachmentSize → handleFileSelect sz sel = some sz) ∧
    (∀ hasTx, handleUploadAttachment none hasTx = none) := by
  refine ⟨fun h => ?_, fun h => ?_, fun hasTx => rfl⟩
  · unfold handleFileSelect
    rw [if_pos h]
  · unfold handleFileSelect
    rw [if_neg (not_lt.mpr h)]

/-- C9 witness: one byte over the cap is rejected; exactly 10 MB is
accepted. -/
theorem C9_attachment_size_cap_witness :
    handleFileSelect (10 * 1024 * 1024 + 1) none = none ∧
    handleFileSelect (10 * 1024 * 1024) none = some (10 * 1024 * 1024) :=
  ⟨(C9_attachment_size_cap (10 * 1024 * 1024 + 1) none).1 (by decide),
   (C9_attachment_size_cap (10 * 1024 * 1024) none).2.1 (by decide)⟩

/-- C10: every synthesized virtual occurrence equals its template in every
field except `date`, which becomes the projected date. -/
theorem C10_virtual_equals_template (regular templates : List Transaction)
    (y m : Nat) (v : Transaction) (hv : v ∈ virtualsFor regular y m templates) :
    ∃ tpl ∈ templates, ∃ d, tpl.recurrence_day = some d ∧
      v.id = tpl.id ∧ v.user_id = tpl.user_id ∧ v.amount = tpl.amount ∧
      v.type = tpl.type ∧ v.description = tpl.description ∧ v.status = tpl.status ∧
      v.is_recurring = tpl.is_recurring ∧ v.recurrence_day = tpl.recurrence_day ∧
      v.category_id = tpl.category_id ∧ v.categories = tpl.categories ∧
      v.date = mkDate y m d := by
  obtain ⟨tpl, htpl, hsome⟩ := List.mem_filterMap.mp hv
  refine ⟨tpl, htpl, ?_⟩
  unfold synthOne at hsome
  cases hrd : tpl.recurrence_day with
  | none =>
    rw [hrd] at hsome
    simp at hsome
  | some d =>
    simp only [hrd] at hsome
    by_cases h0 : d = 0
    · rw [if_pos h0] at hsome; cases hsome
    · rw [if_neg h0] at hsome
      by_cases hex : (regular.any fun t =>
          decide (t.id = tpl.id) && decide (t.date = mkDate y m d)) = true
      · rw [if_pos hex] at hsome; cases hsome
      · rw [if_neg hex] at hsome
        obtain rfl := Option.some.inj hsome
        exact ⟨d, rfl, rfl, rfl, rfl, rfl, rfl, rfl, rfl, rfl, rfl, rfl, rfl⟩

/-- C10 witness: the June 2025 projection of a fully populated template
keeps every field but the date. -/
theorem C10_virtual_equals_template_witness :
    ∃ tpl ∈ [tplC10], ∃ d, tpl.recurrence_day = some d ∧
      vC10.id = tpl.id ∧ vC10.user_id = tpl.user_id ∧ vC10.amount = tpl.amount ∧
      vC10.type = tpl.type ∧ vC10.description = tpl.description ∧
      vC10.status = tpl.status ∧ vC10.is_recurring = tpl.is_recurring ∧
      vC10.recurrence_day = tpl.recurrence_day ∧ vC10.category_id = tpl.category_id ∧
      vC10.categories = tpl.categories ∧ vC10.date = mkDate 2025 6 d :=
  C10_virtual_equals_template [] [tplC10] 2025 6 vC10 (by decide)
